import Mathlib

/- Shallow embedding of the accounts app of the erp-project repository:
   src/accounts/models.py (Account status workflow and AccountStatusHistory),
   src/accounts/validators.py (account number range validator) and
   src/accounts/forms.py (descendant traversal used by the hierarchy check).
   Python strings stay String, Django dates become Nat, datetimes become a
   date/time-of-day pair ordered lexicographically, and raised ValidationError
   becomes an explicit error value returned next to the unchanged state. -/

/-- Account statuses of models.py STATUS_CHOICES (5-state model). -/
inductive Status where
  | ACTIVE
  | ARCHIVED
  | PENDING_APPROVAL
  | PENDING_ARCHIVAL
  | PENDING_UNARCHIVAL
deriving DecidableEq, Repr

/-- String value of each status constant, as interpolated into notes text. -/
def Status.toStr : Status → String
  | .ACTIVE => "ACTIVE"
  | .ARCHIVED => "ARCHIVED"
  | .PENDING_APPROVAL => "PENDING_APPROVAL"
  | .PENDING_ARCHIVAL => "PENDING_ARCHIVAL"
  | .PENDING_UNARCHIVAL => "PENDING_UNARCHIVAL"

/-- models.py Account.VALID_STATUS_TRANSITIONS: for each current status, the
list of statuses it may transition to. -/
def VALID_STATUS_TRANSITIONS : Status → List Status
  | .ACTIVE => [.ARCHIVED, .PENDING_ARCHIVAL]
  | .ARCHIVED => [.ACTIVE, .PENDING_UNARCHIVAL]
  | .PENDING_APPROVAL => [.ACTIVE, .ARCHIVED]
  | .PENDING_ARCHIVAL => [.ACTIVE, .ARCHIVED]
  | .PENDING_UNARCHIVAL => [.ACTIVE, .ARCHIVED]

/-- A datetime value: calendar date (as Nat) plus time of day, so that
Django datetime.date() is the first projection. -/
structure DateTime where
  date : Nat
  tod : Nat
deriving DecidableEq, Repr

/-- Strict chronological order on datetimes (lexicographic). -/
def DateTime.lt (a b : DateTime) : Prop :=
  a.date < b.date ∨ (a.date = b.date ∧ a.tod < b.tod)

instance (a b : DateTime) : Decidable (DateTime.lt a b) := by
  unfold DateTime.lt
  infer_instance

/-- models.py Account fields (the persisted columns, minus the pk). The
account_type foreign key is represented by the type name and the parent
foreign key by the parent account number. -/
structure Account where
  number : String
  name : String
  account_type : String
  description : String
  parent : Option String
  status : Status
  is_active : Bool
  status_change_date : Option Nat
  status_change_reason : String
  requested_by : String
  requested_date : Option DateTime
  approved_by : String
  approved_date : Option DateTime
  created_at : DateTime
  updated_at : DateTime
deriving DecidableEq, Repr

/-- models.py AccountStatusHistory fields (its account foreign key is implicit:
records live inside the owning AccountState below, matching the CASCADE
composition). -/
structure AccountStatusHistory where
  status : Status
  effective_date : Nat
  notes : String
  created_by : String
  requested_by : String
  approved_by : String
  created_at : DateTime
deriving DecidableEq, Repr

/-- One Account row together with its AccountStatusHistory rows, in insertion
order. -/
structure AccountState where
  account : Account
  history : List AccountStatusHistory
deriving DecidableEq, Repr

/-- The ValidationError values raised by the workflow code. invalidTransition
carries the current status and its list of valid targets (the data interpolated
into the message at models.py lines 162-166); guardError carries the literal
message of the other raise sites. -/
inductive Err where
  | invalidTransition (current : Status) (validTargets : List Status)
  | guardError (message : String)
deriving DecidableEq, Repr

/-- models.py Account.save: recomputes is_active from status before persisting;
auto_now sets updated_at. -/
def Account.save (a : Account) (now : DateTime) : Account :=
  { a with is_active := decide (a.status = Status.ACTIVE), updated_at := now }

/-- The requested_by branch of _change_status (models.py lines 187-189): a
truthy (nonempty) requested_by updates requested_by and requested_date. -/
def applyRequested (a : Account) (requested_by : String) (now : DateTime) : Account :=
  if requested_by ≠ "" then
    { a with requested_by := requested_by, requested_date := some now }
  else a

/-- The approved_by branch of _change_status (models.py lines 191-193). -/
def applyApproved (a : Account) (approved_by : String) (now : DateTime) : Account :=
  if approved_by ≠ "" then
    { a with approved_by := approved_by, approved_date := some now }
  else a

/-- The notes text composed at models.py lines 198-202. -/
def composeNotes (old_status new_status : Status) (reason requested_by approved_by : String) : String :=
  let notes0 := ("Changed from " ++ old_status.toStr ++ " to " ++ new_status.toStr
      ++ ". " ++ reason).trim
  if requested_by ≠ "" ∧ approved_by ≠ "" then
    notes0 ++ " Requested by " ++ requested_by ++ ". Approved by " ++ approved_by ++ "."
  else if requested_by ≠ "" then
    notes0 ++ " Requested by " ++ requested_by ++ "."
  else notes0

/-- models.py Account._change_status composed with _validate_status_transition.
Validation happens first: a target outside the transition table of the current
status raises before any field is written, so the error branch returns the
input state unchanged. (The recognized-status check of
_validate_status_transition holds by construction here, statuses being the
inductive Status type.) The no-op equality check follows validation, as in the
source. On success the account is mutated, saved, and one history record is
appended. Returns the post-call state and the returned bool or raised error. -/
def changeStatus (st : AccountState) (new_status : Status) (reason : String)
    (change_date : Option Nat) (requested_by approved_by : String) (now : DateTime) :
    AccountState × Except Err Bool :=
  if new_status ∈ VALID_STATUS_TRANSITIONS st.account.status then
    if st.account.status = new_status then
      (st, Except.ok false)
    else
      let old_status := st.account.status
      let eff := change_date.getD now.date
      let a1 := { st.account with
        status := new_status,
        status_change_date := some eff,
        status_change_reason := reason }
      let a2 := applyRequested a1 requested_by now
      let a3 := applyApproved a2 approved_by now
      let a4 := Account.save a3 now
      let newRecord : AccountStatusHistory := {
        status := new_status,
        effective_date := eff,
        notes := composeNotes old_status new_status reason requested_by approved_by,
        created_by := if approved_by ≠ "" then approved_by else requested_by,
        requested_by := "",
        approved_by := "",
        created_at := now }
      ({ account := a4, history := st.history ++ [newRecord] }, Except.ok true)
  else
    (st, Except.error (Err.invalidTransition st.account.status
      (VALID_STATUS_TRANSITIONS st.account.status)))

/-- models.py Account.request_archival. -/
def request_archival (st : AccountState) (reason requested_by : String) (now : DateTime) :
    AccountState × Except Err Bool :=
  if st.account.status ≠ Status.ACTIVE then
    (st, Except.error (Err.guardError "Only active accounts can be requested for archival."))
  else
    changeStatus st Status.PENDING_ARCHIVAL ("Archival requested. " ++ reason)
      none requested_by "" now

/-- models.py Account.request_unarchival. -/
def request_unarchival (st : AccountState) (reason requested_by : String) (now : DateTime) :
    AccountState × Except Err Bool :=
  if st.account.status ≠ Status.ARCHIVED then
    (st, Except.error (Err.guardError "Only archived accounts can be requested for unarchival."))
  else
    changeStatus st Status.PENDING_UNARCHIVAL ("Unarchival requested. " ++ reason)
      none requested_by "" now

/-- models.py Account.approve_creation. -/
def approve_creation (st : AccountState) (reason approved_by : String) (now : DateTime) :
    AccountState × Except Err Bool :=
  if st.account.status ≠ Status.PENDING_APPROVAL then
    (st, Except.error (Err.guardError "Only pending accounts can be approved for creation."))
  else
    changeStatus st Status.ACTIVE ("Creation approved. " ++ reason)
      none "" approved_by now

/-- models.py Account.approve_archival. -/
def approve_archival (st : AccountState) (reason approved_by : String) (now : DateTime) :
    AccountState × Except Err Bool :=
  if st.account.status ≠ Status.PENDING_ARCHIVAL then
    (st, Except.error (Err.guardError "Only accounts pending archival can be approved for archival."))
  else
    changeStatus st Status.ARCHIVED ("Archival approved. " ++ reason)
      none "" approved_by now

/-- models.py Account.approve_unarchival. -/
def approve_unarchival (st : AccountState) (reason approved_by : String) (now : DateTime) :
    AccountState × Except Err Bool :=
  if st.account.status ≠ Status.PENDING_UNARCHIVAL then
    (st, Except.error (Err.guardError "Only accounts pending unarchival can be approved for unarchival."))
  else
    changeStatus st Status.ACTIVE ("Unarchival approved. " ++ reason)
      none "" approved_by now

/-- models.py Account.reject_archival. -/
def reject_archival (st : AccountState) (reason approved_by : String) (now : DateTime) :
    AccountState × Except Err Bool :=
  if st.account.status ≠ Status.PENDING_ARCHIVAL then
    (st, Except.error (Err.guardError "Only accounts pending archival can have their request rejected."))
  else
    changeStatus st Status.ACTIVE ("Archival request rejected. " ++ reason)
      none "" approved_by now

/-- models.py Account.reject_unarchival. -/
def reject_unarchival (st : AccountState) (reason approved_by : String) (now : DateTime) :
    AccountState × Except Err Bool :=
  if st.account.status ≠ Status.PENDING_UNARCHIVAL then
    (st, Except.error (Err.guardError "Only accounts pending unarchival can have their request rejected."))
  else
    changeStatus st Status.ARCHIVED ("Unarchival request rejected. " ++ reason)
      none "" approved_by now

/-- models.py Account.activate (direct admin action). -/
def activate (st : AccountState) (reason approved_by : String) (now : DateTime) :
    AccountState × Except Err Bool :=
  if st.account.status ∉ [Status.PENDING_APPROVAL, Status.ARCHIVED, Status.PENDING_UNARCHIVAL] then
    (st, Except.error (Err.guardError "Account status cannot be changed to active from its current status."))
  else
    changeStatus st Status.ACTIVE ("Directly activated. " ++ reason) none "" approved_by now

/-- models.py Account.archive (direct admin action, optional archive_date). -/
def archive (st : AccountState) (reason approved_by : String) (archive_date : Option Nat)
    (now : DateTime) : AccountState × Except Err Bool :=
  if st.account.status ∉ [Status.ACTIVE, Status.PENDING_ARCHIVAL, Status.PENDING_APPROVAL] then
    (st, Except.error (Err.guardError "Account status cannot be changed to archived from its current status."))
  else
    changeStatus st Status.ARCHIVED ("Directly archived. " ++ reason) archive_date "" approved_by now

/-- models.py Account.unarchive (direct admin action). -/
def unarchive (st : AccountState) (reason approved_by : String) (now : DateTime) :
    AccountState × Except Err Bool :=
  if st.account.status ≠ Status.ARCHIVED ∧ st.account.status ≠ Status.PENDING_UNARCHIVAL then
    (st, Except.error (Err.guardError "Only archived accounts or accounts pending unarchival can be unarchived."))
  else
    changeStatus st Status.ACTIVE ("Directly unarchived. " ++ reason) none "" approved_by now

/-- Account creation (Account.objects.create with the model field defaults of
models.py: status defaults to PENDING_APPROVAL, is_active to False, workflow
fields blank, created_at to now) followed by the overridden save. Nothing in
models.py creates an AccountStatusHistory row here: the post_save/receiver
imports at models.py lines 5-6 are unused and Account.save (lines 142-148)
only recomputes is_active, so a new account starts with an empty history. -/
def createAccount (number name account_type description : String)
    (parent : Option String) (now : DateTime) : AccountState :=
  { account := Account.save {
      number := number
      name := name
      account_type := account_type
      description := description
      parent := parent
      status := Status.PENDING_APPROVAL
      is_active := false
      status_change_date := none
      status_change_reason := ""
      requested_by := ""
      requested_date := none
      approved_by := ""
      approved_date := none
      created_at := now
      updated_at := now } now
    history := [] }

/-- A table of accounts, each with its history: the Account rows plus the
AccountStatusHistory rows grouped under their owning account (the CASCADE
foreign key of models.py line 366). number is the unique key. -/
abbrev Db := List AccountState

/-- Lookup by unique account number (get_object_or_404 or objects.filter on
number). -/
def lookupAccount (db : Db) (number : String) : Option AccountState :=
  db.find? (fun st => st.account.number == number)

/-- models.py Account.reject_creation: only a PENDING_APPROVAL account may be
rejected; rejection deletes the account row, cascading to its history rows
(here: the AccountState leaves the table), and returns True. No status change
and no history append happens. Returns the post-call table and the
result. Accounts are identified by their unique number. -/
def reject_creation (db : Db) (st : AccountState) : Db × Except Err Bool :=
  if st.account.status ≠ Status.PENDING_APPROVAL then
    (db, Except.error (Err.guardError "Only pending accounts can be rejected."))
  else
    (db.filter (fun x => x.account.number ≠ st.account.number), Except.ok true)

/-- Strict order on history records by (effective_date, created_at), the key
of the order_by of models.py line 399 (descending there). recLater a b means
b is strictly more recent than a. -/
def recLater (a b : AccountStatusHistory) : Prop :=
  a.effective_date < b.effective_date ∨
    (a.effective_date = b.effective_date ∧ DateTime.lt a.created_at b.created_at)

instance (a b : AccountStatusHistory) : Decidable (recLater a b) := by
  unfold recLater
  infer_instance

/-- One scan step keeping the more recent of the best-so-far and the next
record. -/
def pickStep (acc : Option AccountStatusHistory) (r : AccountStatusHistory) :
    Option AccountStatusHistory :=
  match acc with
  | none => some r
  | some best => if recLater best r then some r else some best

/-- The first record of the queryset ordered by descending (effective_date,
created_at): a maximal element under recLater, scanning the stored list once. -/
def pickLatest (l : List AccountStatusHistory) : Option AccountStatusHistory :=
  l.foldl pickStep none

/-- models.py AccountStatusHistory.get_status_on_date: take the most recent
history record of the account with effective_date at or before check_date; if
there is none and the account was created on or before check_date, return
PENDING_APPROVAL; with no record and a later creation date, return none;
otherwise report the record status with PENDING_ARCHIVAL read as ACTIVE and
PENDING_UNARCHIVAL read as ARCHIVED. -/
def get_status_on_date (st : AccountState) (check_date : Nat) : Option Status :=
  let status_record := pickLatest (st.history.filter (fun r => r.effective_date ≤ check_date))
  match status_record with
  | none =>
    if st.account.created_at.date ≤ check_date then some Status.PENDING_APPROVAL
    else none
  | some r =>
    match r.status with
    | Status.PENDING_ARCHIVAL => some Status.ACTIVE
    | Status.PENDING_UNARCHIVAL => some Status.ARCHIVED
    | s => some s

/-- Modelled from the spec sentence on reporting collapse, for comparison with
the code path above: pending workflow states are collapsed to their settled
equivalents, PENDING_ARCHIVAL to ACTIVE and PENDING_UNARCHIVAL to ARCHIVED. -/
def collapseStatus : Status → Status
  | Status.PENDING_ARCHIVAL => Status.ACTIVE
  | Status.PENDING_UNARCHIVAL => Status.ARCHIVED
  | s => s

/-- The error kinds raised by validators.py validate_account_number_range, in
the order of its three raise sites; each carries the data interpolated into
the corresponding message. -/
inductive RangeErr where
  | NotNumeric
  | UnknownAccountType (typeName : String)
  | OutOfRange (value : String) (typeName : String) (lo hi : Int)
deriving DecidableEq, Repr

/-- models.py AccountType fields. -/
structure AccountType where
  name : String
  normal_balance : String
  description : String
deriving DecidableEq, Repr

/-- States of the digit scanner behind pyInt. -/
inductive PyIntState where
  | start
  | afterDigit
  | afterUnderscore
deriving DecidableEq, Repr

/-- One step of the digit scanner: digits accumulate; a single underscore is
allowed between digits (Python 3 int literal grouping); anything else kills
the parse. -/
def pyIntStep (acc : Option (PyIntState × Nat)) (c : Char) : Option (PyIntState × Nat) :=
  match acc with
  | none => none
  | some (s, n) =>
    if c.isDigit then some (PyIntState.afterDigit, 10 * n + (c.toNat - 48))
    else if c = '_' then
      match s with
      | PyIntState.afterDigit => some (PyIntState.afterUnderscore, n)
      | _ => none
    else none

/-- Magnitude part of Python int(str): a nonempty digit run, underscores only
between digits. -/
def pyIntDigits (cs : List Char) : Option Nat :=
  match cs.foldl pyIntStep (some (PyIntState.start, 0)) with
  | some (PyIntState.afterDigit, n) => some n
  | _ => none

/-- The whitespace stripping int() performs on its argument before parsing:
drop whitespace from both ends of the character list. -/
def pyStrip (cs : List Char) : List Char :=
  ((cs.dropWhile Char.isWhitespace).reverse.dropWhile Char.isWhitespace).reverse

/-- Python int(str): strips surrounding whitespace, allows one optional sign,
then a digit run. Returns none where int() raises ValueError. -/
def pyInt (s : String) : Option Int :=
  match pyStrip s.toList with
  | '+' :: rest => (pyIntDigits rest).map Int.ofNat
  | '-' :: rest => (pyIntDigits rest).map (fun n => -(Int.ofNat n : Int))
  | cs => (pyIntDigits cs).map Int.ofNat

/-- validators.py account_ranges dict: the inclusive number range owned by
each of the eight recognized account type names. -/
def account_ranges (name : String) : Option (Int × Int) :=
  if name = "Asset" then some (100000, 199999)
  else if name = "Liability" then some (200000, 289999)
  else if name = "Equity" then some (290000, 299999)
  else if name = "Revenue" then some (300000, 399999)
  else if name = "COGS" then some (400000, 499999)
  else if name = "Operating Expense" then some (500000, 599999)
  else if name = "G&A" then some (600000, 699999)
  else if name = "Other" then some (700000, 799999)
  else none

/-- validators.py validate_account_number_range: parse the number as an int
(NotNumeric on failure), look up the range for the account type name
(UnknownAccountType when absent), and require lo ≤ n ≤ hi (OutOfRange
otherwise). -/
def validate_account_number_range (value : String) (account_type : AccountType) :
    Except RangeErr Unit :=
  match pyInt value with
  | none => Except.error RangeErr.NotNumeric
  | some account_num =>
    match account_ranges account_type.name with
    | none => Except.error (RangeErr.UnknownAccountType account_type.name)
    | some (min_val, max_val) =>
      if min_val ≤ account_num ∧ account_num ≤ max_val then Except.ok ()
      else Except.error (RangeErr.OutOfRange value account_type.name min_val max_val)

/-- The parent back-reference graph of Account rows, for forms.py: nodes are
account primary keys, parent gives the parent foreign key. -/
structure HGraph where
  nodes : List Nat
  parentOf : Nat → Option Nat

/-- account.children.all(): the accounts whose parent is the given account. -/
def childrenOf (g : HGraph) (a : Nat) : List Nat :=
  g.nodes.filter (fun c => g.parentOf c == some a)

/-- forms.py AccountForm._get_descendants, fuel-indexed. The Python method
recurses over children with no visited set; fuel bounds the recursion depth,
and none means the computation did not finish within that depth (so a result
of none at every fuel is non-termination of the source recursion). For each
child in order, the child is appended and then its recursively computed
descendants are spliced in, exactly the append/extend of lines 117-119. -/
def getDescendantsFuel (g : HGraph) (fuel : Nat) (a : Nat) : Option (List Nat) :=
  match fuel with
  | 0 => none
  | fuel + 1 =>
    (childrenOf g a).foldl
      (fun acc c =>
        acc.bind (fun l => (getDescendantsFuel g fuel c).map (fun sub => l ++ c :: sub)))
      (some [])

/-- Non-termination of the descendant traversal at a node: no recursion depth
suffices. -/
def descendantsDiverge (g : HGraph) (a : Nat) : Prop :=
  ∀ fuel, getDescendantsFuel g fuel a = none

/-- Two accounts that are each other's parent: pk 0 has parent 1 and pk 1 has
parent 0 (the malformed cyclic legacy data the spec warns about). -/
def cycleGraph : HGraph :=
  { nodes := [0, 1]
    parentOf := fun n => if n = 0 then some 1 else if n = 1 then some 0 else none }

/-- A two-node acyclic graph: pk 1 is the only child of pk 0. -/
def chainGraph : HGraph :=
  { nodes := [0, 1]
    parentOf := fun n => if n = 1 then some 0 else none }

/-- A concrete ACTIVE account used to instantiate universally quantified
theorems. -/
def sampleActiveAccount : Account :=
  { number := "101000"
    name := "Test Cash Account"
    account_type := "Asset"
    description := ""
    parent := none
    status := Status.ACTIVE
    is_active := true
    status_change_date := none
    status_change_reason := ""
    requested_by := ""
    requested_date := none
    approved_by := ""
    approved_date := none
    created_at := { date := 10, tod := 0 }
    updated_at := { date := 10, tod := 0 } }

/-- A concrete PENDING_APPROVAL account. -/
def samplePendingAccount : Account :=
  { number := "102000"
    name := "Another Test Account"
    account_type := "Asset"
    description := ""
    parent := none
    status := Status.PENDING_APPROVAL
    is_active := false
    status_change_date := none
    status_change_reason := ""
    requested_by := ""
    requested_date := none
    approved_by := ""
    approved_date := none
    created_at := { date := 10, tod := 0 }
    updated_at := { date := 10, tod := 0 } }

/-- No status appears in its own VALID_STATUS_TRANSITIONS list, so the
transition table is irreflexive. -/
theorem self_not_mem_transitions (s : Status) : s ∉ VALID_STATUS_TRANSITIONS s := by
  cases s <;> decide

/-- applyRequested with an empty (falsy) requested_by changes nothing. -/
theorem applyRequested_empty (a : Account) (now : DateTime) :
    applyRequested a "" now = a := by
  simp [applyRequested]

/-- applyApproved with an empty (falsy) approved_by changes nothing. -/
theorem applyApproved_empty (a : Account) (now : DateTime) :
    applyApproved a "" now = a := by
  simp [applyApproved]

/-- applyRequested never touches the status field. -/
theorem applyRequested_status (a : Account) (rb : String) (now : DateTime) :
    (applyRequested a rb now).status = a.status := by
  unfold applyRequested
  split <;> rfl

/-- applyApproved never touches the status field. -/
theorem applyApproved_status (a : Account) (ab : String) (now : DateTime) :
    (applyApproved a ab now).status = a.status := by
  unfold applyApproved
  split <;> rfl

/-- applyApproved never touches the requester attribution fields. -/
theorem applyApproved_requested (a : Account) (ab : String) (now : DateTime) :
    (applyApproved a ab now).requested_by = a.requested_by
      ∧ (applyApproved a ab now).requested_date = a.requested_date := by
  unfold applyApproved
  split <;> exact ⟨rfl, rfl⟩

/-- applyRequested never touches the approver attribution fields. -/
theorem applyRequested_approved (a : Account) (rb : String) (now : DateTime) :
    (applyRequested a rb now).approved_by = a.approved_by
      ∧ (applyRequested a rb now).approved_date = a.approved_date := by
  unfold applyRequested
  split <;> exact ⟨rfl, rfl⟩

/-- C1 counterexample: on an ACTIVE account, _change_status targeting the
current status ACTIVE raises InvalidTransition instead of returning False:
_validate_status_transition runs before the equality no-op check and no
status is in its own transition list. The state is returned unchanged. -/
theorem selfTransition_raises_counterexample :
    changeStatus { account := sampleActiveAccount, history := [] } Status.ACTIVE ""
        none "" "" { date := 11, tod := 0 }
      = ({ account := sampleActiveAccount, history := [] },
         Except.error (Err.invalidTransition Status.ACTIVE
           [Status.ARCHIVED, Status.PENDING_ARCHIVAL])) := by
  rfl

/-- C1 (amended): a transition whose target equals the current status fails
with InvalidTransition carrying the current status and its valid-target list,
and leaves the account state (and so its history) unchanged; the return-False
no-op branch of _change_status is unreachable because validation precedes it
and the transition table is irreflexive. -/
theorem selfTransition_invalidTransition (st : AccountState) (t : Status)
    (reason : String) (cd : Option Nat) (rb ab : String) (now : DateTime)
    (h : t = st.account.status) :
    changeStatus st t reason cd rb ab now
      = (st, Except.error (Err.invalidTransition st.account.status
          (VALID_STATUS_TRANSITIONS st.account.status))) := by
  subst h
  unfold changeStatus
  rw [if_neg (self_not_mem_transitions st.account.status)]

/-- Witness for selfTransition_invalidTransition at a concrete ACTIVE account. -/
theorem selfTransition_invalidTransition_witness :
    changeStatus { account := sampleActiveAccount, history := [] } Status.ACTIVE "x"
        none "alice" "bob" { date := 12, tod := 3 }
      = ({ account := sampleActiveAccount, history := [] },
         Except.error (Err.invalidTransition Status.ACTIVE
           [Status.ARCHIVED, Status.PENDING_ARCHIVAL])) :=
  selfTransition_invalidTransition { account := sampleActiveAccount, history := [] }
    Status.ACTIVE "x" none "alice" "bob" { date := 12, tod := 3 } rfl

/-- C2 (code evaluated at the failing input): a newly created account has an
empty status history, not the one implicit initial pending record the spec
and the repository test expect; models.py defines no post_save handler even
though it imports post_save and receiver, and Account.save only recomputes
is_active. -/
theorem createAccount_no_initial_history (number name ty desc : String)
    (parent : Option String) (now : DateTime) :
    (createAccount number name ty desc parent now).history = []
      ∧ (createAccount number name ty desc parent now).history.length ≠ 1
      ∧ (createAccount number name ty desc parent now).account.status
          = Status.PENDING_APPROVAL := by
  exact ⟨rfl, by simp [createAccount], rfl⟩

/-- C3: when the target is not in the transition table entry of the current
status, _change_status fails with InvalidTransition carrying the current
status and the list of valid targets, and the account state and history are
returned unchanged (the error is raised before any field write). -/
theorem invalidTransition_frame (st : AccountState) (t : Status) (reason : String)
    (cd : Option Nat) (rb ab : String) (now : DateTime)
    (h : t ∉ VALID_STATUS_TRANSITIONS st.account.status) :
    changeStatus st t reason cd rb ab now
      = (st, Except.error (Err.invalidTransition st.account.status
          (VALID_STATUS_TRANSITIONS st.account.status))) := by
  unfold changeStatus
  rw [if_neg h]

/-- Witness for invalidTransition_frame: ACTIVE may not go back to
PENDING_APPROVAL. -/
theorem invalidTransition_frame_witness :
    changeStatus { account := sampleActiveAccount, history := [] }
        Status.PENDING_APPROVAL "r" none "" "" { date := 11, tod := 0 }
      = ({ account := sampleActiveAccount, history := [] },
         Except.error (Err.invalidTransition Status.ACTIVE
           [Status.ARCHIVED, Status.PENDING_ARCHIVAL])) :=
  invalidTransition_frame { account := sampleActiveAccount, history := [] }
    Status.PENDING_APPROVAL "r" none "" "" { date := 11, tod := 0 } (by decide)

/-- C7: is_active is recomputed from status on every save, and therefore after
every status change that returns without raising; it is never set
independently of status. -/
theorem is_active_invariant :
    (∀ (a : Account) (now : DateTime),
      (Account.save a now).is_active = decide ((Account.save a now).status = Status.ACTIVE))
    ∧ (∀ st t reason cd rb ab now st2 b,
        changeStatus st t reason cd rb ab now = (st2, Except.ok b) →
        st2.account.is_active = decide (st2.account.status = Status.ACTIVE)) := by
  constructor
  · intro a now
    rfl
  · intro st t reason cd rb ab now st2 b h
    unfold changeStatus at h
    by_cases hmem : t ∈ VALID_STATUS_TRANSITIONS st.account.status
    · rw [if_pos hmem] at h
      by_cases heq : st.account.status = t
      · rw [heq] at hmem
        exact absurd hmem (self_not_mem_transitions t)
      · rw [if_neg heq] at h
        injection h with h1 h2
        subst h1
        rfl
    · rw [if_neg hmem] at h
      injection h with h1 h2
      exact absurd h2 (by simp)

/-- Witness for is_active_invariant, second conjunct, at a concrete accepted
transition (ACTIVE to PENDING_ARCHIVAL). -/
theorem is_active_invariant_witness :
    (changeStatus { account := sampleActiveAccount, history := [] }
        Status.PENDING_ARCHIVAL "r" none "alice" "" { date := 11, tod := 0 }).1.account.is_active
      = decide ((changeStatus { account := sampleActiveAccount, history := [] }
        Status.PENDING_ARCHIVAL "r" none "alice" "" { date := 11, tod := 0 }).1.account.status
          = Status.ACTIVE) :=
  is_active_invariant.2 { account := sampleActiveAccount, history := [] }
    Status.PENDING_ARCHIVAL "r" none "alice" "" { date := 11, tod := 0 } _ _ rfl

/-- C10: an empty requested_by argument leaves the requested_by and
requested_date account fields exactly as they were before the call, and an
empty approved_by argument likewise leaves approved_by and approved_date
untouched, whatever the call returns, so attribution recorded by an earlier
transition persists through later transitions that do not supply it. -/
theorem attribution_frame :
    (∀ st t reason cd ab now,
      ((changeStatus st t reason cd "" ab now).1.account.requested_by
          = st.account.requested_by
        ∧ (changeStatus st t reason cd "" ab now).1.account.requested_date
          = st.account.requested_date))
    ∧ (∀ st t reason cd rb now,
      ((changeStatus st t reason cd rb "" now).1.account.approved_by
          = st.account.approved_by
        ∧ (changeStatus st t reason cd rb "" now).1.account.approved_date
          = st.account.approved_date)) := by
  constructor
  · intro st t reason cd ab now
    unfold changeStatus
    split
    · split
      · exact ⟨rfl, rfl⟩
      · simp only [applyRequested_empty, Account.save]
        exact (applyApproved_requested _ ab now)
    · exact ⟨rfl, rfl⟩
  · intro st t reason cd rb now
    unfold changeStatus
    split
    · split
      · exact ⟨rfl, rfl⟩
      · simp only [applyApproved_empty, Account.save]
        exact (applyRequested_approved _ rb now)
    · exact ⟨rfl, rfl⟩

/-- An accepted transition (target in the table, different from the current
status) returns True, sets the account status to the target, and appends
exactly one history record carrying the target status. -/
theorem changeStatus_ok (st : AccountState) (t : Status) (reason : String)
    (cd : Option Nat) (rb ab : String) (now : DateTime)
    (hmem : t ∈ VALID_STATUS_TRANSITIONS st.account.status)
    (hne : ¬ st.account.status = t) :
    (changeStatus st t reason cd rb ab now).2 = Except.ok true
    ∧ (changeStatus st t reason cd rb ab now).1.account.status = t
    ∧ (changeStatus st t reason cd rb ab now).1.history.map AccountStatusHistory.status
        = st.history.map AccountStatusHistory.status ++ [t] := by
  unfold changeStatus
  rw [if_pos hmem, if_neg hne]
  refine ⟨rfl, ?_, ?_⟩
  · simp [Account.save, applyRequested_status, applyApproved_status]
  · simp

/-- approve_creation on a PENDING_APPROVAL account succeeds into ACTIVE and
appends one ACTIVE history record. -/
theorem approve_creation_ok (st : AccountState) (r u : String) (n : DateTime)
    (h : st.account.status = Status.PENDING_APPROVAL) :
    (approve_creation st r u n).2 = Except.ok true
    ∧ (approve_creation st r u n).1.account.status = Status.ACTIVE
    ∧ (approve_creation st r u n).1.history.map AccountStatusHistory.status
        = st.history.map AccountStatusHistory.status ++ [Status.ACTIVE] := by
  unfold approve_creation
  rw [if_neg (by rw [h]; simp)]
  exact changeStatus_ok st Status.ACTIVE ("Creation approved. " ++ r) none "" u n
    (by rw [h]; decide) (by rw [h]; decide)

/-- request_archival on an ACTIVE account succeeds into PENDING_ARCHIVAL and
appends one PENDING_ARCHIVAL history record. -/
theorem request_archival_ok (st : AccountState) (r u : String) (n : DateTime)
    (h : st.account.status = Status.ACTIVE) :
    (request_archival st r u n).2 = Except.ok true
    ∧ (request_archival st r u n).1.account.status = Status.PENDING_ARCHIVAL
    ∧ (request_archival st r u n).1.history.map AccountStatusHistory.status
        = st.history.map AccountStatusHistory.status ++ [Status.PENDING_ARCHIVAL] := by
  unfold request_archival
  rw [if_neg (by rw [h]; simp)]
  exact changeStatus_ok st Status.PENDING_ARCHIVAL ("Archival requested. " ++ r) none u "" n
    (by rw [h]; decide) (by rw [h]; decide)

/-- approve_archival on a PENDING_ARCHIVAL account succeeds into ARCHIVED and
appends one ARCHIVED history record. -/
theorem approve_archival_ok (st : AccountState) (r u : String) (n : DateTime)
    (h : st.account.status = Status.PENDING_ARCHIVAL) :
    (approve_archival st r u n).2 = Except.ok true
    ∧ (approve_archival st r u n).1.account.status = Status.ARCHIVED
    ∧ (approve_archival st r u n).1.history.map AccountStatusHistory.status
        = st.history.map AccountStatusHistory.status ++ [Status.ARCHIVED] := by
  unfold approve_archival
  rw [if_neg (by rw [h]; simp)]
  exact changeStatus_ok st Status.ARCHIVED ("Archival approved. " ++ r) none "" u n
    (by rw [h]; decide) (by rw [h]; decide)

/-- request_unarchival on an ARCHIVED account succeeds into PENDING_UNARCHIVAL
and appends one PENDING_UNARCHIVAL history record. -/
theorem request_unarchival_ok (st : AccountState) (r u : String) (n : DateTime)
    (h : st.account.status = Status.ARCHIVED) :
    (request_unarchival st r u n).2 = Except.ok true
    ∧ (request_unarchival st r u n).1.account.status = Status.PENDING_UNARCHIVAL
    ∧ (request_unarchival st r u n).1.history.map AccountStatusHistory.status
        = st.history.map AccountStatusHistory.status ++ [Status.PENDING_UNARCHIVAL] := by
  unfold request_unarchival
  rw [if_neg (by rw [h]; simp)]
  exact changeStatus_ok st Status.PENDING_UNARCHIVAL ("Unarchival requested. " ++ r) none u "" n
    (by rw [h]; decide) (by rw [h]; decide)

/-- approve_unarchival on a PENDING_UNARCHIVAL account succeeds into ACTIVE and
appends one ACTIVE history record. -/
theorem approve_unarchival_ok (st : AccountState) (r u : String) (n : DateTime)
    (h : st.account.status = Status.PENDING_UNARCHIVAL) :
    (approve_unarchival st r u n).2 = Except.ok true
    ∧ (approve_unarchival st r u n).1.account.status = Status.ACTIVE
    ∧ (approve_unarchival st r u n).1.history.map AccountStatusHistory.status
        = st.history.map AccountStatusHistory.status ++ [Status.ACTIVE] := by
  unfold approve_unarchival
  rw [if_neg (by rw [h]; simp)]
  exact changeStatus_ok st Status.ACTIVE ("Unarchival approved. " ++ r) none "" u n
    (by rw [h]; decide) (by rw [h]; decide)

/-- C4: starting from any account in PENDING_APPROVAL with empty history (a
newly created account), the chain approve_creation, request_archival,
approve_archival, request_unarchival, approve_unarchival succeeds at every
step and ends ACTIVE with exactly five history records carrying, in order,
ACTIVE, PENDING_ARCHIVAL, ARCHIVED, PENDING_UNARCHIVAL, ACTIVE. -/
theorem round_trip_five_records (a : Account) (h : a.status = Status.PENDING_APPROVAL)
    (r1 r2 r3 r4 r5 u1 u2 u3 u4 u5 : String) (n1 n2 n3 n4 n5 : DateTime) :
    (approve_creation { account := a, history := [] } r1 u1 n1).2 = Except.ok true
    ∧ (request_archival (approve_creation { account := a, history := [] } r1 u1 n1).1
        r2 u2 n2).2 = Except.ok true
    ∧ (approve_archival (request_archival
        (approve_creation { account := a, history := [] } r1 u1 n1).1 r2 u2 n2).1
        r3 u3 n3).2 = Except.ok true
    ∧ (request_unarchival (approve_archival (request_archival
        (approve_creation { account := a, history := [] } r1 u1 n1).1 r2 u2 n2).1
        r3 u3 n3).1 r4 u4 n4).2 = Except.ok true
    ∧ (approve_unarchival (request_unarchival (approve_archival (request_archival
        (approve_creation { account := a, history := [] } r1 u1 n1).1 r2 u2 n2).1
        r3 u3 n3).1 r4 u4 n4).1 r5 u5 n5).2 = Except.ok true
    ∧ (approve_unarchival (request_unarchival (approve_archival (request_archival
        (approve_creation { account := a, history := [] } r1 u1 n1).1 r2 u2 n2).1
        r3 u3 n3).1 r4 u4 n4).1 r5 u5 n5).1.account.status = Status.ACTIVE
    ∧ (approve_unarchival (request_unarchival (approve_archival (request_archival
        (approve_creation { account := a, history := [] } r1 u1 n1).1 r2 u2 n2).1
        r3 u3 n3).1 r4 u4 n4).1 r5 u5 n5).1.history.map AccountStatusHistory.status
        = [Status.ACTIVE, Status.PENDING_ARCHIVAL, Status.ARCHIVED,
           Status.PENDING_UNARCHIVAL, Status.ACTIVE]
    ∧ (approve_unarchival (request_unarchival (approve_archival (request_archival
        (approve_creation { account := a, history := [] } r1 u1 n1).1 r2 u2 n2).1
        r3 u3 n3).1 r4 u4 n4).1 r5 u5 n5).1.history.length = 5 := by
  have h1 := approve_creation_ok { account := a, history := [] } r1 u1 n1 h
  have h2 := request_archival_ok _ r2 u2 n2 h1.2.1
  have h3 := approve_archival_ok _ r3 u3 n3 h2.2.1
  have h4 := request_unarchival_ok _ r4 u4 n4 h3.2.1
  have h5 := approve_unarchival_ok _ r5 u5 n5 h4.2.1
  have hmap := h5.2.2.trans (by rw [h4.2.2, h3.2.2, h2.2.2, h1.2.2])
  refine ⟨h1.1, h2.1, h3.1, h4.1, h5.1, h5.2.1, ?_, ?_⟩
  · exact hmap
  · simpa using congrArg List.length hmap

/-- Witness for round_trip_five_records at a concrete pending account. -/
theorem round_trip_five_records_witness :
    (approve_unarchival (request_unarchival (approve_archival (request_archival
        (approve_creation { account := samplePendingAccount, history := [] } "" ""
          { date := 11, tod := 0 }).1 "" "" { date := 12, tod := 0 }).1
        "" "" { date := 13, tod := 0 }).1 "" "" { date := 14, tod := 0 }).1
      "" "" { date := 15, tod := 0 }).1.account.status = Status.ACTIVE :=
  (round_trip_five_records samplePendingAccount rfl "" "" "" "" "" "" "" "" "" ""
    { date := 11, tod := 0 } { date := 12, tod := 0 } { date := 13, tod := 0 }
    { date := 14, tod := 0 } { date := 15, tod := 0 }).2.2.2.2.2.1

/-- recLater is irreflexive. -/
theorem recLater_irrefl (r : AccountStatusHistory) : ¬ recLater r r := by
  simp only [recLater, DateTime.lt]
  omega

/-- Transitivity of the non-strict (negated) recency order. -/
theorem not_recLater_trans (a b c : AccountStatusHistory)
    (h1 : ¬ recLater a b) (h2 : ¬ recLater c a) : ¬ recLater c b := by
  simp only [recLater, DateTime.lt] at h1 h2 ⊢
  omega

/-- A record strictly older than b is also not more recent than anything b is
not more recent than. -/
theorem recLater_lt_le (a b c : AccountStatusHistory)
    (h1 : recLater a b) (h2 : ¬ recLater c b) : ¬ recLater c a := by
  simp only [recLater, DateTime.lt] at h1 h2 ⊢
  omega

/-- The record returned by the scan comes from the accumulator or the list. -/
theorem pickFold_mem (l : List AccountStatusHistory) :
    ∀ (acc : Option AccountStatusHistory) (r : AccountStatusHistory),
      l.foldl pickStep acc = some r → acc = some r ∨ r ∈ l := by
  induction l with
  | nil =>
    intro acc r h
    exact Or.inl h
  | cons c cs ih =>
    intro acc r h
    rw [List.foldl_cons] at h
    rcases ih (pickStep acc c) r h with h1 | h1
    · cases acc with
      | none =>
        have hc : c = r := by simpa [pickStep] using h1
        subst hc
        exact Or.inr (List.mem_cons_self _ _)
      | some best =>
        by_cases hb : recLater best c
        · have hc : c = r := by simpa [pickStep, hb] using h1
          subst hc
          exact Or.inr (List.mem_cons_self _ _)
        · have hc : best = r := by simpa [pickStep, hb] using h1
          exact Or.inl (by rw [hc])
    · exact Or.inr (List.mem_cons_of_mem _ h1)

/-- The record returned by the scan is maximal: nothing in the list, nor the
accumulator content, is strictly more recent. -/
theorem pickFold_max (l : List AccountStatusHistory) :
    ∀ (acc : Option AccountStatusHistory) (r : AccountStatusHistory),
      l.foldl pickStep acc = some r →
      (∀ x ∈ l, ¬ recLater r x) ∧ (∀ b, acc = some b → ¬ recLater r b) := by
  induction l with
  | nil =>
    intro acc r h
    simp only [List.foldl_nil] at h
    refine ⟨by simp, ?_⟩
    intro b hb
    rw [h] at hb
    injection hb with hb
    subst hb
    exact recLater_irrefl r
  | cons c cs ih =>
    intro acc r h
    rw [List.foldl_cons] at h
    obtain ⟨ih1, ih2⟩ := ih (pickStep acc c) r h
    constructor
    · intro x hx
      rcases List.mem_cons.mp hx with hxc | hx'
      · subst hxc
        cases acc with
        | none => exact ih2 x rfl
        | some best =>
          by_cases hb : recLater best x
          · exact ih2 x (by simp [pickStep, hb])
          · exact not_recLater_trans best x r hb (ih2 best (by simp [pickStep, hb]))
      · exact ih1 x hx'
    · intro b hb
      subst hb
      by_cases hlater : recLater b c
      · exact recLater_lt_le b c r hlater (ih2 c (by simp [pickStep, hlater]))
      · exact ih2 b (by simp [pickStep, hlater])

/-- Starting from a nonempty accumulator the scan returns a record. -/
theorem pickFold_some (l : List AccountStatusHistory) :
    ∀ (b : AccountStatusHistory), ∃ r, l.foldl pickStep (some b) = some r := by
  induction l with
  | nil => exact fun b => ⟨b, rfl⟩
  | cons c cs ih =>
    intro b
    rw [List.foldl_cons]
    by_cases hb : recLater b c
    · simpa [pickStep, hb] using ih c
    · simpa [pickStep, hb] using ih b

/-- A nonempty list yields a record. -/
theorem pickLatest_of_ne_nil (l : List AccountStatusHistory) (hl : l ≠ []) :
    ∃ r, pickLatest l = some r := by
  cases l with
  | nil => exact absurd rfl hl
  | cons c cs =>
    unfold pickLatest
    rw [List.foldl_cons]
    exact pickFold_some cs c

/-- The picked record belongs to the list and is maximal under recLater. -/
theorem pickLatest_spec (l : List AccountStatusHistory) (r : AccountStatusHistory)
    (h : pickLatest l = some r) : r ∈ l ∧ ∀ x ∈ l, ¬ recLater r x := by
  unfold pickLatest at h
  have hm := pickFold_mem l none r h
  have hx := pickFold_max l none r h
  refine ⟨?_, hx.1⟩
  rcases hm with hm | hm
  · exact absurd hm (by simp)
  · exact hm

/-- C5: get_status_on_date returns the collapsed status (PENDING_ARCHIVAL read
as ACTIVE, PENDING_UNARCHIVAL as ARCHIVED) of a most recent history record
with effective_date at or before the query date; when no history record
qualifies it returns PENDING_APPROVAL if the account creation date is on or
before the query date and none otherwise. -/
theorem get_status_on_date_spec (st : AccountState) (d : Nat) :
    (st.history.filter (fun r => r.effective_date ≤ d) = [] →
      get_status_on_date st d
        = if st.account.created_at.date ≤ d then some Status.PENDING_APPROVAL else none)
    ∧ (st.history.filter (fun r => r.effective_date ≤ d) ≠ [] →
      ∃ r, r ∈ st.history ∧ r.effective_date ≤ d
        ∧ (∀ x ∈ st.history, x.effective_date ≤ d → ¬ recLater r x)
        ∧ get_status_on_date st d = some (collapseStatus r.status)) := by
  constructor
  · intro hfil
    unfold get_status_on_date
    rw [hfil]
    rfl
  · intro hfil
    obtain ⟨r, hr⟩ := pickLatest_of_ne_nil _ hfil
    obtain ⟨hmem, hmax⟩ := pickLatest_spec _ r hr
    have hmem2 := List.mem_filter.mp hmem
    refine ⟨r, hmem2.1, by simpa using hmem2.2, ?_, ?_⟩
    · intro x hx hxle
      exact hmax x (List.mem_filter.mpr ⟨hx, by simpa using hxle⟩)
    · unfold get_status_on_date
      rw [hr]
      cases hs : r.status <;> simp [collapseStatus, hs]

/-- A concrete account state with two history records, the later one a
PENDING_ARCHIVAL record. -/
def sampleHistoryState : AccountState :=
  { account := sampleActiveAccount
    history := [
      { status := Status.ACTIVE
        effective_date := 11
        notes := ""
        created_by := ""
        requested_by := ""
        approved_by := ""
        created_at := { date := 11, tod := 1 } },
      { status := Status.PENDING_ARCHIVAL
        effective_date := 13
        notes := ""
        created_by := ""
        requested_by := ""
        approved_by := ""
        created_at := { date := 13, tod := 1 } }] }

/-- Witness for get_status_on_date_spec on a concrete two-record history. -/
theorem get_status_on_date_spec_witness :
    ∃ r, r ∈ sampleHistoryState.history ∧ r.effective_date ≤ 15
      ∧ (∀ x ∈ sampleHistoryState.history, x.effective_date ≤ 15 → ¬ recLater r x)
      ∧ get_status_on_date sampleHistoryState 15 = some (collapseStatus r.status) :=
  (get_status_on_date_spec sampleHistoryState 15).2 (by decide)

/-- C6: reject_creation fails with the guard error on any account not in
PENDING_APPROVAL, leaving the table untouched; on a PENDING_APPROVAL account
it returns True and deletes the account row together with all its history
(the cascading AccountState entry), so a lookup by the same number finds
nothing and the number is free; every other account row is untouched and no
transition or history append happens. -/
theorem reject_creation_spec :
    (∀ (db : Db) (st : AccountState), st.account.status ≠ Status.PENDING_APPROVAL →
      reject_creation db st
        = (db, Except.error (Err.guardError "Only pending accounts can be rejected.")))
    ∧ (∀ (db : Db) (st : AccountState), st.account.status = Status.PENDING_APPROVAL →
      (reject_creation db st).2 = Except.ok true
      ∧ lookupAccount (reject_creation db st).1 st.account.number = none
      ∧ (∀ x ∈ (reject_creation db st).1, x.account.number ≠ st.account.number)
      ∧ (reject_creation db st).1
          = db.filter (fun x => x.account.number ≠ st.account.number)) := by
  constructor
  · intro db st h
    unfold reject_creation
    rw [if_pos h]
  · intro db st h
    unfold reject_creation
    rw [if_neg (fun hn => hn h)]
    refine ⟨rfl, ?_, ?_, rfl⟩
    · refine List.find?_eq_none.mpr ?_
      intro x hx
      have hne : x.account.number ≠ st.account.number := by
        simpa using (List.mem_filter.mp hx).2
      simpa using hne
    · intro x hx
      simpa using (List.mem_filter.mp hx).2

/-- A one-row table holding only the sample pending account. -/
def sampleDb : Db := [{ account := samplePendingAccount, history := [] }]

/-- Witness for reject_creation_spec: rejecting the sample pending account
empties the sample table. -/
theorem reject_creation_spec_witness :
    (reject_creation sampleDb { account := samplePendingAccount, history := [] }).2
        = Except.ok true
    ∧ lookupAccount
        (reject_creation sampleDb { account := samplePendingAccount, history := [] }).1
        ({ account := samplePendingAccount, history := [] } : AccountState).account.number
        = none
    ∧ (∀ x ∈ (reject_creation sampleDb
          { account := samplePendingAccount, history := [] }).1,
        x.account.number
          ≠ ({ account := samplePendingAccount, history := [] } : AccountState).account.number)
    ∧ (reject_creation sampleDb { account := samplePendingAccount, history := [] }).1
        = sampleDb.filter (fun x => x.account.number
            ≠ ({ account := samplePendingAccount, history := [] } : AccountState).account.number) :=
  reject_creation_spec.2 sampleDb { account := samplePendingAccount, history := [] } rfl

/-- The Asset account type instance of the C8 examples. -/
def assetType : AccountType :=
  { name := "Asset", normal_balance := "DEBIT", description := "" }

/-- C8: the range validator fails NotNumeric exactly when Python int parsing
fails, fails UnknownAccountType when the type name owns no range, fails
OutOfRange outside the inclusive range and succeeds inside it; the eight
recognized categories own the documented ranges and nothing else is
recognized; and the three documented examples evaluate as stated. -/
theorem validate_range_spec :
    (∀ (s : String) (t : AccountType), pyInt s = none →
      validate_account_number_range s t = Except.error RangeErr.NotNumeric)
    ∧ (∀ (s : String) (t : AccountType) (n : Int), pyInt s = some n →
      account_ranges t.name = none →
      validate_account_number_range s t
        = Except.error (RangeErr.UnknownAccountType t.name))
    ∧ (∀ (s : String) (t : AccountType) (n lo hi : Int), pyInt s = some n →
      account_ranges t.name = some (lo, hi) → (n < lo ∨ hi < n) →
      validate_account_number_range s t
        = Except.error (RangeErr.OutOfRange s t.name lo hi))
    ∧ (∀ (s : String) (t : AccountType) (n lo hi : Int), pyInt s = some n →
      account_ranges t.name = some (lo, hi) → lo ≤ n → n ≤ hi →
      validate_account_number_range s t = Except.ok ())
    ∧ account_ranges "Asset" = some (100000, 199999)
    ∧ account_ranges "Liability" = some (200000, 289999)
    ∧ account_ranges "Equity" = some (290000, 299999)
    ∧ account_ranges "Revenue" = some (300000, 399999)
    ∧ account_ranges "COGS" = some (400000, 499999)
    ∧ account_ranges "Operating Expense" = some (500000, 599999)
    ∧ account_ranges "G&A" = some (600000, 699999)
    ∧ account_ranges "Other" = some (700000, 799999)
    ∧ (∀ nm, account_ranges nm ≠ none →
        nm ∈ ["Asset", "Liability", "Equity", "Revenue", "COGS",
              "Operating Expense", "G&A", "Other"])
    ∧ validate_account_number_range "150000" assetType = Except.ok ()
    ∧ validate_account_number_range "250000" assetType
        = Except.error (RangeErr.OutOfRange "250000" "Asset" 100000 199999)
    ∧ validate_account_number_range "abc123" assetType
        = Except.error RangeErr.NotNumeric := by
  refine ⟨?_, ?_, ?_, ?_, rfl, rfl, rfl, rfl, rfl, rfl, rfl, rfl, ?_, rfl, rfl, rfl⟩
  · intro s t h
    unfold validate_account_number_range
    rw [h]
  · intro s t n h1 h2
    unfold validate_account_number_range
    rw [h1, h2]
  · intro s t n lo hi h1 h2 h3
    unfold validate_account_number_range
    rw [h1, h2]
    exact if_neg (by omega)
  · intro s t n lo hi h1 h2 h3 h4
    unfold validate_account_number_range
    rw [h1, h2]
    exact if_pos ⟨h3, h4⟩
  · intro nm h
    unfold account_ranges at h
    split_ifs at h with h1 h2 h3 h4 h5 h6 h7 h8 <;> simp_all

/-- Witness for validate_range_spec: the NotNumeric branch applied at a
concrete non-numeric string. -/
theorem validate_range_spec_witness :
    validate_account_number_range "xyz" assetType = Except.error RangeErr.NotNumeric :=
  validate_range_spec.1 "xyz" assetType rfl

/-- The fold step of getDescendantsFuel, named for reasoning: append the child
and splice in its recursively computed descendants, propagating failure. -/
def descStep (g : HGraph) (fuel : Nat) (acc : Option (List Nat)) (c : Nat) :
    Option (List Nat) :=
  acc.bind (fun l => (getDescendantsFuel g fuel c).map (fun sub => l ++ c :: sub))

/-- Unfolding getDescendantsFuel at positive fuel. -/
theorem getDescendantsFuel_succ (g : HGraph) (fuel a : Nat) :
    getDescendantsFuel g (fuel + 1) a
      = (childrenOf g a).foldl (descStep g fuel) (some []) := rfl

/-- Failure is absorbing for the descendant fold. -/
theorem descFold_none (g : HGraph) (fuel : Nat) (cs : List Nat) :
    cs.foldl (descStep g fuel) none = none := by
  induction cs with
  | nil => rfl
  | cons c cs ih =>
    rw [List.foldl_cons]
    exact ih

/-- If every child's recursive call succeeds, the descendant fold succeeds. -/
theorem descFold_some (g : HGraph) (fuel : Nat) (cs : List Nat)
    (h : ∀ c ∈ cs, ∃ sub, getDescendantsFuel g fuel c = some sub) :
    ∀ acc, ∃ l, cs.foldl (descStep g fuel) (some acc) = some l := by
  induction cs with
  | nil => exact fun acc => ⟨acc, rfl⟩
  | cons c cs ih =>
    intro acc
    obtain ⟨sub, hsub⟩ := h c (List.mem_cons_self _ _)
    obtain ⟨l, hl⟩ := ih (fun c2 hc2 => h c2 (List.mem_cons_of_mem _ hc2)) (acc ++ c :: sub)
    refine ⟨l, ?_⟩
    rw [List.foldl_cons]
    have hstep : descStep g fuel (some acc) c = some (acc ++ c :: sub) := by
      simp [descStep, hsub]
    rw [hstep]
    exact hl

/-- On the two-node parent cycle the traversal finds no finite result at any
recursion depth, at either node: each node recurses into the other with one
unit of fuel less. -/
theorem cycle_diverges_aux (fuel : Nat) :
    getDescendantsFuel cycleGraph fuel 0 = none
      ∧ getDescendantsFuel cycleGraph fuel 1 = none := by
  induction fuel with
  | zero => exact ⟨rfl, rfl⟩
  | succ n ih =>
    constructor
    · rw [getDescendantsFuel_succ]
      rw [show childrenOf cycleGraph 0 = [1] from rfl]
      rw [List.foldl_cons, List.foldl_nil]
      simp [descStep, ih.2]
    · rw [getDescendantsFuel_succ]
      rw [show childrenOf cycleGraph 1 = [0] from rfl]
      rw [List.foldl_cons, List.foldl_nil]
      simp [descStep, ih.1]

/-- C9 counterexample: on the cyclic graph where accounts 0 and 1 are each
other's parent, the _get_descendants recursion of forms.py does not terminate
starting from account 0 (no recursion depth yields a result), because the
traversal tracks no visited set. -/
theorem descendants_cycle_diverges : descendantsDiverge cycleGraph 0 :=
  fun fuel => (cycle_diverges_aux fuel).1

/-- C9 (amended): on every account graph whose children relation admits a
strictly decreasing rank (equivalently, every graph whose parent references
are acyclic), the descendant traversal terminates and returns a finite list,
with recursion depth bounded by the rank of the start node. -/
theorem descendants_terminate_with_rank (g : HGraph) (rank : Nat → Nat)
    (hr : ∀ a c, c ∈ childrenOf g a → rank c < rank a) (a : Nat) :
    ∃ l, getDescendantsFuel g (rank a + 1) a = some l := by
  have main : ∀ (k : Nat) (a2 : Nat), rank a2 ≤ k →
      ∃ l, getDescendantsFuel g (k + 1) a2 = some l := by
    intro k
    induction k with
    | zero =>
      intro a2 ha
      rw [getDescendantsFuel_succ]
      have hcs : childrenOf g a2 = [] := by
        cases hc : childrenOf g a2 with
        | nil => rfl
        | cons c cs =>
          have := hr a2 c (by rw [hc]; exact List.mem_cons_self _ _)
          omega
      rw [hcs]
      exact ⟨[], rfl⟩
    | succ k ihk =>
      intro a2 ha
      rw [getDescendantsFuel_succ]
      exact descFold_some g (k + 1) (childrenOf g a2)
        (fun c hc => ihk c (by have := hr a2 c hc; omega)) []
  exact main (rank a) a (Nat.le_refl _)

/-- Witness for descendants_terminate_with_rank on the concrete two-node chain
graph, ranking the root 1 and the leaf 0. -/
theorem descendants_terminate_witness :
    ∃ l, getDescendantsFuel chainGraph 2 0 = some l :=
  descendants_terminate_with_rank chainGraph (fun n => if n = 0 then 1 else 0)
    (by
      intro a c hc
      have h1 : c = 0 ∨ c = 1 := by simpa [chainGraph, childrenOf] using (List.mem_filter.mp hc).1
      have h2 := (List.mem_filter.mp hc).2
      rcases h1 with rfl | rfl
      · simp [chainGraph, childrenOf] at h2
      · have ha : (0 : Nat) = a := by simpa [chainGraph, childrenOf] using h2
        subst ha
        decide)
    0
